import Mathlib

/-!
Shallow embedding of the session-scoped conversation and prompt manager of
`src/app.py` (a Streamlit educational-assistant app).  UI callbacks are
modelled as pure functions on an explicit session-state record; the OpenAI
call is modelled by passing the gateway outcome (`Except GatewayError String`)
into each handler, which also reports the list of requests it issued.
-/

namespace EduAI

/-- A Streamlit `st.session_state` slot.  `none` means the key is absent,
`some none` means the key is present holding Python `None`, and
`some (some s)` means the key holds the string `s`. -/
abbrev Slot := Option (Option String)

/-- Python truthiness of a session-state slot retrieved with
`st.session_state.get(...)`: an absent key and `None` are falsy, a string is
truthy exactly when it is non-empty. -/
def truthy : Slot → Bool
  | some (some s) => s ≠ ""
  | _ => false

/-- The string stored in a slot; only meaningful when `truthy` holds. -/
def slotStr : Slot → String
  | some (some s) => s
  | _ => ""

/-- Transport or API failure of the completion gateway
(`openai.ChatCompletion.create` raising). -/
structure GatewayError where
  detail : String
deriving DecidableEq

/-- One request issued to the completion gateway: the system message and the
user message of the two-element `messages` list built in `src/app.py`. -/
structure GatewayRequest where
  systemMessage : String
  userMessage : String
deriving DecidableEq

/-- One chat exchange stored in `st.session_state.chat_history`
(the tuple `(user_input, ai_response, persona, message_id)`, `src/app.py`
line 255). -/
structure Turn where
  user_input : String
  ai_response : String
  persona : String
  message_id : String
deriving DecidableEq

/-- A thumbs-up or thumbs-down vote. -/
inductive Vote
  | thumbs_up
  | thumbs_down
deriving DecidableEq

/-- One record appended to `st.session_state.feedback_log`
(`src/app.py` lines 196-203 and 208-215). -/
structure FeedbackEntry where
  message_id : String
  user_input : String
  ai_response : String
  persona : String
  feedback : Vote
  timestamp : String
deriving DecidableEq

/-- The per-session mutable state of the app: the two lists initialised at
`src/app.py` lines 126-129 plus the four optional slots written by the
learn and quiz features. -/
structure SessionState where
  chat_history : List Turn
  feedback_log : List FeedbackEntry
  learning_topic : Slot
  learning_content : Slot
  generated_quiz_text : Slot
  quiz_title : Slot
deriving DecidableEq

/-- The session state right after initialisation: empty history and feedback
log, no learn or quiz keys present. -/
def initialSession : SessionState :=
  { chat_history := []
    feedback_log := []
    learning_topic := none
    learning_content := none
    generated_quiz_text := none
    quiz_title := none }

/-! ### Learn-a-topic feature (`src/app.py` lines 141-166) -/

/-- System message of a learn request (`src/app.py` line 147). -/
def learnSystemInstruction : String :=
  "You are an AI assistant that provides educational content."

/-- User message of a learn request (`src/app.py` line 145). -/
def learnUserMessage (topic : String) : String :=
  "Explain the topic: " ++ topic ++ ". Provide a clear and concise explanation suitable for a student learning this for the first time. Focus on key concepts."

/-- What the learn click handler reported to the user. -/
inductive LearnOutcome
  | fetched
  | gatewayFailed (e : GatewayError)
  | emptyTopicWarning
deriving DecidableEq

/-- Result of one click of the learning-material button. -/
structure LearnResult where
  state : SessionState
  gatewayCalls : List GatewayRequest
  outcome : LearnOutcome
deriving DecidableEq

/-- Models one click of the learning-material button (`src/app.py` lines
141-166).  An empty topic input is falsy, so the handler only warns and calls
nothing; otherwise one gateway request is issued and, on success, both
`learning_content` and `learning_topic` are stored, while on failure the
exception branch deletes whichever of the two keys is present. -/
def handleLearnClick (s : SessionState) (learn_topic_input : String)
    (gw : Except GatewayError String) : LearnResult :=
  if learn_topic_input ≠ "" then
    match gw with
    | .ok content =>
        { state := { s with learning_content := some (some content)
                            learning_topic := some (some learn_topic_input) }
          gatewayCalls := [⟨learnSystemInstruction, learnUserMessage learn_topic_input⟩]
          outcome := .fetched }
    | .error e =>
        { state := { s with learning_content := none, learning_topic := none }
          gatewayCalls := [⟨learnSystemInstruction, learnUserMessage learn_topic_input⟩]
          outcome := .gatewayFailed e }
  else
    { state := s, gatewayCalls := [], outcome := .emptyTopicWarning }

/-! ### Clear-topic button (`src/app.py` lines 173-177) -/

/-- Failure of the clear-topic handler: `del st.session_state.learning_content`
raises when the key is absent. -/
inductive ClearError
  | KeyError
deriving DecidableEq

/-- Models one click of the clear-topic button (`src/app.py` lines 173-177):
`learning_content` is deleted unconditionally (raising if the key is absent),
then `learning_topic` is deleted only if present. -/
def clearTopicClick (s : SessionState) : Except ClearError SessionState :=
  match s.learning_content with
  | none => .error ClearError.KeyError
  | some _ => .ok { s with learning_content := none, learning_topic := none }

/-! ### Chat feature (`src/app.py` lines 220-263) -/

/-- Base system message of a chat request (`src/app.py` line 227). -/
def chatBaseSystemMessage (persona lang : String) : String :=
  "You are an AI assistant. Your persona is " ++ persona ++ ". Respond in " ++ lang ++ "."

/-- The context template appended to the chat system message when a learning
context is active (`src/app.py` lines 233-237). -/
def chatContextTemplate (learning_topic learning_content : String) : String :=
  " The user is currently learning about '" ++ learning_topic ++
  "'. Please try to answer questions in the context of the following material: '" ++
  learning_content ++
  "'. If the question is unrelated, you can answer more generally but indicate if it's outside the scope of the current topic."

/-- The full chat system message (`src/app.py` lines 227-237): the base
message, extended with the context template when both `learning_topic` and
`learning_content` are truthy. -/
def chatSystemMessage (persona lang : String) (s : SessionState) : String :=
  if truthy s.learning_topic = true ∧ truthy s.learning_content = true then
    chatBaseSystemMessage persona lang ++
      chatContextTemplate (slotStr s.learning_topic) (slotStr s.learning_content)
  else
    chatBaseSystemMessage persona lang

/-- The message id assigned to a chat turn:
`str(datetime.datetime.now().timestamp())` at `src/app.py` line 252.  The
clock instant is modelled as a natural number and `str` as its decimal
representation. -/
def messageIdOf (instant : Nat) : String := Nat.repr instant

/-- Result of processing one chat input. -/
structure ChatResult where
  state : SessionState
  gatewayCalls : List GatewayRequest
deriving DecidableEq

/-- Models the chat-input handler (`src/app.py` lines 222-263).  A non-empty
input issues one gateway request; on success the turn
`(input, response, persona, message_id)` is appended to `chat_history`, and on
failure the exception branch only displays an error, mutating nothing. -/
def handleChatInput (s : SessionState) (chat_input persona lang : String)
    (instant : Nat) (gw : Except GatewayError String) : ChatResult :=
  if chat_input ≠ "" then
    match gw with
    | .ok resp =>
        { state := { s with chat_history :=
              s.chat_history ++ [⟨chat_input, resp, persona, messageIdOf instant⟩] }
          gatewayCalls := [⟨chatSystemMessage persona lang s, chat_input⟩] }
    | .error _ =>
        { state := s
          gatewayCalls := [⟨chatSystemMessage persona lang s, chat_input⟩] }
  else
    { state := s, gatewayCalls := [] }

/-- One chat interaction as seen from the session store: the widget inputs,
the clock instant at which the handler ran, and the gateway outcome. -/
structure ChatEvent where
  input : String
  persona : String
  lang : String
  instant : Nat
  gw : Except GatewayError String

/-- Runs a sequence of chat interactions through the chat-input handler. -/
def processChats (s : SessionState) : List ChatEvent → SessionState
  | [] => s
  | e :: rest => processChats (handleChatInput s e.input e.persona e.lang e.instant e.gw).state rest

/-- The turn that a chat event appends to the history, if any: only non-empty
inputs whose gateway call succeeded append a turn. -/
def eventTurn? (e : ChatEvent) : Option Turn :=
  if e.input ≠ "" then
    match e.gw with
    | .ok resp => some ⟨e.input, resp, e.persona, messageIdOf e.instant⟩
    | .error _ => none
  else none

/-! ### Feedback buttons (`src/app.py` lines 187-216) -/

/-- Failure of a feedback request: no feedback button exists for a message id
outside `chat_history`, so such a request cannot reach the append. -/
inductive FeedbackError
  | UnknownTurn
deriving DecidableEq

/-- Models a click on a thumbs-up or thumbs-down button (`src/app.py` lines
187-216).  The rendering loop creates feedback buttons only for the turns in
`chat_history`, so a vote carrying a `message_id` not in the history cannot
occur and is rejected; a vote on a present turn appends exactly one entry
built from that turn's fields to `feedback_log`. -/
def record_feedback (s : SessionState) (turn_id : String) (vote : Vote)
    (ts : String) : Except FeedbackError SessionState :=
  match s.chat_history.find? (fun t => t.message_id == turn_id) with
  | none => .error FeedbackError.UnknownTurn
  | some t =>
      .ok { s with feedback_log := s.feedback_log ++
              [⟨t.message_id, t.user_input, t.ai_response, t.persona, vote, ts⟩] }

/-! ### Quiz generator (`src/app.py` lines 278-317) -/

/-- System message of a quiz request (`src/app.py` line 302). -/
def quizSystemInstruction : String :=
  "You are an AI assistant that generates educational quizzes."

/-- Quiz prompt grounded in the active learning content
(`src/app.py` line 287). -/
def quizFromContentPrompt (learning_content : String) : String :=
  "Generate a 3-question multiple-choice quiz based on the following text: '" ++
  learning_content ++
  "'. Each question should have 3-4 options, with one correct answer. Format clearly with each question numbered (Q1, Q2, etc.), options lettered (A, B, C), and explicitly state the 'Correct Answer: [Letter]' for each question."

/-- Quiz title in the content-grounded branch (`src/app.py` line 288). -/
def quizFromContentTitle (learning_topic : String) : String :=
  "🧪 Quiz on: " ++ learning_topic

/-- Quiz prompt grounded in subject, grade and chapter
(`src/app.py` lines 291-292); the local `topic_for_prompt` conditional is
inlined. -/
def quizCurriculumPrompt (subject grade chapter : String) : String :=
  "Generate a 3-question multiple-choice quiz for a Class " ++ grade ++
  " student on " ++
  (if chapter ≠ "" then "Chapter: " ++ chapter else "general topics") ++
  " in " ++ subject ++
  ". Each question should have 3-4 options, with one correct answer. Format clearly with each question numbered (Q1, Q2, etc.), options lettered (A, B, C), and explicitly state the 'Correct Answer: [Letter]' for each question."

/-- Quiz title in the curriculum branch (`src/app.py` line 293). -/
def quizCurriculumTitle (subject grade chapter : String) : String :=
  "🧪 Quiz: " ++ subject ++ " - Class " ++ grade ++ " " ++
  (if chapter ≠ "" then "- " ++ chapter else "")

/-- Which of the two prompt branches a quiz generation takes
(`src/app.py` lines 286-296). -/
inductive QuizBranch
  | content
  | curriculum
  | neither
deriving DecidableEq

/-- Branch selection of the quiz handler: the content-grounded branch when
both learning slots are truthy, else the curriculum branch when subject and
grade are truthy, else neither (a warning only). -/
def quizBranch (s : SessionState) (subject grade : String) : QuizBranch :=
  if truthy s.learning_content = true ∧ truthy s.learning_topic = true then .content
  else if subject ≠ "" ∧ grade ≠ "" then .curriculum
  else .neither

/-- Result of one click of the quiz-generation button.  `prompt` and
`quiz_title` are the local variables of the handler. -/
structure QuizResult where
  state : SessionState
  gatewayCalls : List GatewayRequest
  prompt : String
  quiz_title : String
deriving DecidableEq

/-- The gateway call of the quiz handler (`src/app.py` lines 298-317): the
previous quiz text is first overwritten with `None`; on success the generated
text and the title are stored, and on failure the exception branch deletes
both quiz keys if present, so after a failure both are absent. -/
def callQuizGateway (s : SessionState) (prompt quiz_title : String)
    (gw : Except GatewayError String) : QuizResult :=
  match gw with
  | .ok text =>
      { state := { s with generated_quiz_text := some (some text)
                          quiz_title := some (some quiz_title) }
        gatewayCalls := [⟨quizSystemInstruction, prompt⟩]
        prompt := prompt
        quiz_title := quiz_title }
  | .error _ =>
      { state := { s with generated_quiz_text := none, quiz_title := none }
        gatewayCalls := [⟨quizSystemInstruction, prompt⟩]
        prompt := prompt
        quiz_title := quiz_title }

/-- Models one click of the quiz-generation button (`src/app.py` lines
278-317): the content-grounded branch takes precedence when both learning
slots are truthy; otherwise the curriculum branch runs when subject and grade
are truthy; otherwise only a warning is shown (the initial local values
`prompt = ""` and `quiz_title = "🧪 Quiz"` are kept and no call is made). -/
def handleQuizClick (s : SessionState) (subject grade chapter : String)
    (gw : Except GatewayError String) : QuizResult :=
  if truthy s.learning_content = true ∧ truthy s.learning_topic = true then
    callQuizGateway s (quizFromContentPrompt (slotStr s.learning_content))
      (quizFromContentTitle (slotStr s.learning_topic)) gw
  else if subject ≠ "" ∧ grade ≠ "" then
    callQuizGateway s (quizCurriculumPrompt subject grade chapter)
      (quizCurriculumTitle subject grade chapter) gw
  else
    { state := s, gatewayCalls := [], prompt := "", quiz_title := "🧪 Quiz" }

/-! ### Concrete sessions used by scenario conjuncts and witnesses -/

/-- A session in which the learn feature has stored the Photosynthesis
context. -/
def demoLearnedSession : SessionState :=
  { initialSession with
      learning_topic := some (some "Photosynthesis")
      learning_content := some (some "Plants use light...") }

/-- A session holding one chat turn with message id "100" and a previously
generated quiz. -/
def demoChatSession : SessionState :=
  { initialSession with
      chat_history := [⟨"What is it?", "An answer.", "Teacher", "100"⟩]
      generated_quiz_text := some (some "Q1 ...")
      quiz_title := some (some "🧪 Quiz on: Photosynthesis") }

/-! ### Injectivity of the decimal message id

`messageIdOf` renders the clock instant with `Nat.repr`; distinct instants
therefore yield distinct message ids.  The proof goes through `decChars`, a
fuel-free description of the decimal character list. -/

/-- The decimal digit characters of `n`, most significant first. -/
def decChars (n : Nat) : List Char :=
  if h : n < 10 then [Nat.digitChar n]
  else decChars (n / 10) ++ [Nat.digitChar (n % 10)]
decreasing_by exact Nat.div_lt_self (by omega) (by omega)

theorem decChars_lt {n : Nat} (h : n < 10) : decChars n = [Nat.digitChar n] := by
  rw [decChars, dif_pos h]

theorem decChars_ge {n : Nat} (h : ¬ n < 10) :
    decChars n = decChars (n / 10) ++ [Nat.digitChar (n % 10)] := by
  rw [decChars, dif_neg h]

theorem decChars_ne_nil (n : Nat) : decChars n ≠ [] := by
  by_cases h : n < 10
  · rw [decChars_lt h]; simp
  · rw [decChars_ge h]; simp

theorem digitChar_inj_lt_ten :
    ∀ m < 10, ∀ n < 10, Nat.digitChar m = Nat.digitChar n → m = n := by decide

theorem decChars_injective : ∀ m n : Nat, decChars m = decChars n → m = n := by
  intro m
  induction m using Nat.strong_induction_on with
  | _ m ih =>
    intro n h
    by_cases hm : m < 10 <;> by_cases hn : n < 10
    · rw [decChars_lt hm, decChars_lt hn] at h
      exact digitChar_inj_lt_ten m hm n hn (List.singleton_injective h)
    · rw [decChars_lt hm, decChars_ge hn] at h
      have := congrArg List.length h
      simp at this
      exact absurd this (decChars_ne_nil (n / 10))
    · rw [decChars_ge hm, decChars_lt hn] at h
      have := congrArg List.length h
      simp at this
      exact absurd this (decChars_ne_nil (m / 10))
    · rw [decChars_ge hm, decChars_ge hn] at h
      have hrev := congrArg List.reverse h
      simp at hrev
      obtain ⟨hdig, htail⟩ := hrev
      have hdiv : m / 10 = n / 10 := by
        apply ih (m / 10) (Nat.div_lt_self (by omega) (by omega))
        have := congrArg List.reverse htail
        simpa using this
      have hmod : m % 10 = n % 10 :=
        digitChar_inj_lt_ten _ (Nat.mod_lt _ (by omega)) _ (Nat.mod_lt _ (by omega)) hdig
      omega

theorem toDigitsCore_eq_decChars :
    ∀ (f n : Nat) (l : List Char), n < f →
      Nat.toDigitsCore 10 f n l = decChars n ++ l := by
  intro f
  induction f with
  | zero => intro n l h; omega
  | succ f ih =>
    intro n l h
    rw [Nat.toDigitsCore]
    by_cases h10 : n / 10 = 0
    · have hlt : n < 10 := by omega
      simp only [h10, if_pos rfl]
      rw [decChars_lt hlt, Nat.mod_eq_of_lt hlt]
      simp
    · have hge : ¬ n < 10 := by
        intro hc
        exact h10 (Nat.div_eq_of_lt hc)
      simp only [h10, if_neg]
      rw [ih (n / 10) _ (by
        have h1 : n / 10 < n := Nat.div_lt_self (by omega) (by omega)
        omega)]
      rw [decChars_ge hge]
      simp

theorem repr_eq_decChars (n : Nat) : Nat.repr n = (decChars n).asString := by
  rw [Nat.repr, Nat.toDigits, toDigitsCore_eq_decChars (n + 1) n [] (Nat.lt_succ_self n)]
  simp

theorem asString_injective {l₁ l₂ : List Char} (h : l₁.asString = l₂.asString) :
    l₁ = l₂ := by
  simpa [List.asString] using congrArg String.data h

theorem messageIdOf_injective {m n : Nat} (h : messageIdOf m = messageIdOf n) :
    m = n := by
  apply decChars_injective
  apply asString_injective
  rw [← repr_eq_decChars, ← repr_eq_decChars]
  exact h

/-! ### History of a sequence of chat interactions -/

theorem handleChatInput_history (s : SessionState) (e : ChatEvent) :
    (handleChatInput s e.input e.persona e.lang e.instant e.gw).state.chat_history =
      s.chat_history ++ (eventTurn? e).toList := by
  unfold handleChatInput eventTurn?
  by_cases h : e.input ≠ ""
  · rw [if_pos h, if_pos h]
    cases e.gw <;> simp
  · rw [if_neg h, if_neg h]
    simp

theorem processChats_history (evs : List ChatEvent) :
    ∀ s : SessionState,
      (processChats s evs).chat_history = s.chat_history ++ evs.filterMap eventTurn? := by
  induction evs with
  | nil => intro s; simp [processChats]
  | cons e rest ih =>
    intro s
    rw [processChats, ih, handleChatInput_history]
    cases he : eventTurn? e <;> simp [List.filterMap_cons, he]

theorem eventTurn?_message_id {e : ChatEvent} {t : Turn} (h : eventTurn? e = some t) :
    t.message_id = messageIdOf e.instant := by
  unfold eventTurn? at h
  by_cases hi : e.input ≠ ""
  · rw [if_pos hi] at h
    cases hgw : e.gw with
    | ok resp => rw [hgw] at h; cases h; rfl
    | error err => rw [hgw] at h; cases h
  · rw [if_neg hi] at h; cases h

theorem turnIds_sublist (evs : List ChatEvent) :
    ((evs.filterMap eventTurn?).map Turn.message_id).Sublist
      (evs.map (fun e => messageIdOf e.instant)) := by
  induction evs with
  | nil => simp
  | cons e rest ih =>
    cases he : eventTurn? e with
    | none =>
      rw [List.filterMap_cons, he, List.map_cons]
      exact ih.cons _
    | some t =>
      rw [List.filterMap_cons, he, List.map_cons, List.map_cons,
        eventTurn?_message_id he]
      exact ih.cons₂ _

/-! ### Claim theorems -/

/-- Claim C1: every learn request with a non-blank topic sends exactly one
request to the completion gateway; its system instruction is the fixed
educational-assistant framing and its user message embeds the topic verbatim
between the fixed surrounding text; for topic "Photosynthesis" the user
message starts with "Explain the topic: Photosynthesis.". -/
theorem C1_learn_prompt (s : SessionState) (topic : String)
    (gw : Except GatewayError String) (h : topic ≠ "") :
    (handleLearnClick s topic gw).gatewayCalls =
      [⟨"You are an AI assistant that provides educational content.",
        "Explain the topic: " ++ topic ++ ". Provide a clear and concise explanation suitable for a student learning this for the first time. Focus on key concepts."⟩] ∧
    (∃ rest, learnUserMessage "Photosynthesis" =
      "Explain the topic: Photosynthesis." ++ rest) := by
  constructor
  · unfold handleLearnClick
    rw [if_pos h]
    cases gw <;> rfl
  · exact ⟨" Provide a clear and concise explanation suitable for a student learning this for the first time. Focus on key concepts.", rfl⟩

/-- Witness for C1 at topic "Photosynthesis". -/
theorem C1_learn_prompt_witness :
    (handleLearnClick initialSession "Photosynthesis" (Except.ok "resp")).gatewayCalls =
      [⟨"You are an AI assistant that provides educational content.",
        "Explain the topic: " ++ "Photosynthesis" ++ ". Provide a clear and concise explanation suitable for a student learning this for the first time. Focus on key concepts."⟩] ∧
    (∃ rest, learnUserMessage "Photosynthesis" =
      "Explain the topic: Photosynthesis." ++ rest) :=
  C1_learn_prompt initialSession "Photosynthesis" (Except.ok "resp") (by decide)

/-- Claim C2: when both learning slots are truthy the chat system instruction
is the base persona/language message extended with the fixed context template
embedding the stored topic and content verbatim; otherwise it is exactly the
base message with no context template; in the Photosynthesis/Teacher/English
scenario it contains both "persona is Teacher" and
"learning about 'Photosynthesis'". -/
theorem C2_chat_system_message (persona lang : String) (s : SessionState) :
    (truthy s.learning_topic = true → truthy s.learning_content = true →
      chatSystemMessage persona lang s =
        chatBaseSystemMessage persona lang ++
          chatContextTemplate (slotStr s.learning_topic) (slotStr s.learning_content)) ∧
    (¬ (truthy s.learning_topic = true ∧ truthy s.learning_content = true) →
      chatSystemMessage persona lang s = chatBaseSystemMessage persona lang) ∧
    (∃ a b, chatSystemMessage "Teacher" "English" demoLearnedSession =
      a ++ "persona is Teacher" ++ b) ∧
    (∃ a b, chatSystemMessage "Teacher" "English" demoLearnedSession =
      a ++ "learning about 'Photosynthesis'" ++ b) := by
  refine ⟨fun h1 h2 => ?_, fun h => ?_, ?_, ?_⟩
  · unfold chatSystemMessage
    rw [if_pos ⟨h1, h2⟩]
  · unfold chatSystemMessage
    rw [if_neg h]
  · exact ⟨"You are an AI assistant. Your ",
      ". Respond in English. The user is currently learning about 'Photosynthesis'. Please try to answer questions in the context of the following material: 'Plants use light...'. If the question is unrelated, you can answer more generally but indicate if it's outside the scope of the current topic.",
      rfl⟩
  · exact ⟨"You are an AI assistant. Your persona is Teacher. Respond in English. The user is currently ",
      ". Please try to answer questions in the context of the following material: 'Plants use light...'. If the question is unrelated, you can answer more generally but indicate if it's outside the scope of the current topic.",
      rfl⟩

/-- Witness for C2 on the Photosynthesis session. -/
theorem C2_chat_system_message_witness :
    chatSystemMessage "Teacher" "English" demoLearnedSession =
      chatBaseSystemMessage "Teacher" "English" ++
        chatContextTemplate "Photosynthesis" "Plants use light..." :=
  (C2_chat_system_message "Teacher" "English" demoLearnedSession).1 (by decide) (by decide)

/-- Claim C5: within one session (starting from an empty history), a sequence
of chat interactions whose clock instants are pairwise distinct produces a
chat history equal, in insertion order, to the turns of the successful
interactions, each carrying the message id derived from the instant of its
own creation, and the message ids are pairwise distinct. -/
theorem C5_turn_ids (s : SessionState) (evs : List ChatEvent)
    (hs : s.chat_history = [])
    (hinst : (evs.map (fun e => e.instant)).Pairwise (fun a b => a ≠ b)) :
    (processChats s evs).chat_history = evs.filterMap eventTurn? ∧
    ((processChats s evs).chat_history.map Turn.message_id).Pairwise
      (fun a b => a ≠ b) := by
  have hh := processChats_history evs s
  rw [hs, List.nil_append] at hh
  refine ⟨hh, ?_⟩
  rw [hh]
  have hids : (evs.map (fun e => messageIdOf e.instant)).Pairwise (fun a b => a ≠ b) := by
    have hm : evs.map (fun e => messageIdOf e.instant) =
        (evs.map (fun e => e.instant)).map messageIdOf := by
      rw [List.map_map]; rfl
    rw [hm]
    exact hinst.map _ (fun a b hab hc => hab (messageIdOf_injective hc))
  exact hids.sublist (turnIds_sublist evs)

/-- Two concrete chat interactions at distinct instants. -/
def demoChatEvents : List ChatEvent :=
  [⟨"Hi", "Fun", "English", 100, Except.ok "Hello!"⟩,
   ⟨"Bye", "Teacher", "Hindi", 101, Except.ok "Goodbye!"⟩]

/-- Witness for C5 on two concrete chat interactions. -/
theorem C5_turn_ids_witness :
    (processChats initialSession demoChatEvents).chat_history =
      demoChatEvents.filterMap eventTurn? ∧
    ((processChats initialSession demoChatEvents).chat_history.map Turn.message_id).Pairwise
      (fun a b => a ≠ b) :=
  C5_turn_ids initialSession demoChatEvents rfl (by decide)

/-- Claim C6: a feedback request whose turn id is not in the turn sequence
fails with UnknownTurn and yields no mutated state, while a feedback request
on a present turn id succeeds, appending exactly one entry to the feedback
log and leaving the history unchanged. -/
theorem C6_record_feedback (s : SessionState) (turn_id ts : String) (vote : Vote) :
    ((∀ t ∈ s.chat_history, t.message_id ≠ turn_id) →
      record_feedback s turn_id vote ts = .error FeedbackError.UnknownTurn) ∧
    ((∃ t ∈ s.chat_history, t.message_id = turn_id) →
      ∃ s', record_feedback s turn_id vote ts = .ok s' ∧
        s'.chat_history = s.chat_history ∧
        ∃ entry, s'.feedback_log = s.feedback_log ++ [entry]) := by
  constructor
  · intro h
    unfold record_feedback
    rw [List.find?_eq_none.mpr ?_]
    intro t ht
    simpa using h t ht
  · intro h
    have hsome : (s.chat_history.find? (fun t => t.message_id == turn_id)).isSome := by
      rw [List.find?_isSome]
      obtain ⟨t, ht, he⟩ := h
      exact ⟨t, ht, by simp [he]⟩
    unfold record_feedback
    cases hf : s.chat_history.find? (fun t => t.message_id == turn_id) with
    | none => rw [hf] at hsome; simp at hsome
    | some t =>
      exact ⟨_, rfl, rfl, _, rfl⟩

/-- Witness for C6: an unknown id is rejected and a present id appends one
entry. -/
theorem C6_record_feedback_witness :
    (record_feedback demoChatSession "nope" Vote.thumbs_up "t0" =
      .error FeedbackError.UnknownTurn) ∧
    (∃ s', record_feedback demoChatSession "100" Vote.thumbs_up "t0" = .ok s' ∧
      s'.chat_history = demoChatSession.chat_history ∧
      ∃ entry, s'.feedback_log = demoChatSession.feedback_log ++ [entry]) :=
  ⟨(C6_record_feedback demoChatSession "nope" "t0" Vote.thumbs_up).1 (by decide),
   (C6_record_feedback demoChatSession "100" "t0" Vote.thumbs_up).2 (by decide)⟩

/-- Claim C3 counterexample: in the content-grounded branch the stored title
is not "Quiz on: Photosynthesis" — the code prefixes it with the test-tube
marker, giving "🧪 Quiz on: Photosynthesis". -/
theorem C3_counterexample :
    quizFromContentTitle "Photosynthesis" ≠ "Quiz on: Photosynthesis" := by decide

/-- Claim C3 (amended): exactly one quiz branch is taken per generation; when
both learning slots are truthy the content-grounded branch is chosen, the
subject, grade and chapter inputs have no effect on the produced result, and
the title is "🧪 Quiz on: " followed by the topic; with no truthy context and
non-blank subject and grade the curriculum branch is chosen. -/
theorem C3_amended (s : SessionState)
    (subject grade chapter subject2 grade2 chapter2 : String)
    (gw : Except GatewayError String) :
    (truthy s.learning_content = true → truthy s.learning_topic = true →
      quizBranch s subject grade = QuizBranch.content ∧
      handleQuizClick s subject grade chapter gw =
        handleQuizClick s subject2 grade2 chapter2 gw ∧
      (handleQuizClick s subject grade chapter gw).quiz_title =
        "🧪 Quiz on: " ++ slotStr s.learning_topic) ∧
    (¬ (truthy s.learning_content = true ∧ truthy s.learning_topic = true) →
      subject ≠ "" → grade ≠ "" →
      quizBranch s subject grade = QuizBranch.curriculum) := by
  constructor
  · intro h1 h2
    refine ⟨?_, ?_, ?_⟩
    · unfold quizBranch
      rw [if_pos ⟨h1, h2⟩]
    · unfold handleQuizClick
      rw [if_pos ⟨h1, h2⟩, if_pos ⟨h1, h2⟩]
    · unfold handleQuizClick
      rw [if_pos ⟨h1, h2⟩]
      cases gw <;> rfl
  · intro h hsub hgrade
    unfold quizBranch
    rw [if_neg h, if_pos ⟨hsub, hgrade⟩]

/-- Witness for C3 (amended) on the Photosynthesis session. -/
theorem C3_amended_witness :
    quizBranch demoLearnedSession "Math" "5" = QuizBranch.content ∧
    handleQuizClick demoLearnedSession "Math" "5" "Fractions" (Except.ok "q") =
      handleQuizClick demoLearnedSession "Science" "6" "" (Except.ok "q") ∧
    (handleQuizClick demoLearnedSession "Math" "5" "Fractions" (Except.ok "q")).quiz_title =
      "🧪 Quiz on: " ++ slotStr demoLearnedSession.learning_topic :=
  (C3_amended demoLearnedSession "Math" "5" "Fractions" "Science" "6" ""
    (Except.ok "q")).1 (by decide) (by decide)

/-- Claim C4 counterexample: the curriculum title for Math, class 5, chapter
Fractions is not "Quiz: Math - Class 5 - Fractions" — the code prefixes the
test-tube marker, giving "🧪 Quiz: Math - Class 5 - Fractions". -/
theorem C4_counterexample :
    quizCurriculumTitle "Math" "5" "Fractions" ≠
      "Quiz: Math - Class 5 - Fractions" := by decide

/-- Claim C4 (amended): the curriculum quiz prompt uses "Chapter: " followed
by the chapter when the chapter is non-empty and "general topics" when it is
empty, and the title equals "🧪 Quiz: " with subject, " - Class ", grade and a
trailing space, extended with "- " and the chapter when the chapter is
non-empty; for Math, class 5, chapter Fractions the title is
"🧪 Quiz: Math - Class 5 - Fractions". -/
theorem C4_amended (subject grade chapter : String) :
    (chapter ≠ "" →
      (∃ a b, quizCurriculumPrompt subject grade chapter =
        a ++ ("Chapter: " ++ chapter) ++ b) ∧
      quizCurriculumTitle subject grade chapter =
        "🧪 Quiz: " ++ subject ++ " - Class " ++ grade ++ " " ++ ("- " ++ chapter)) ∧
    (chapter = "" →
      (∃ a b, quizCurriculumPrompt subject grade chapter =
        a ++ "general topics" ++ b) ∧
      quizCurriculumTitle subject grade chapter =
        "🧪 Quiz: " ++ subject ++ " - Class " ++ grade ++ " ") ∧
    quizCurriculumTitle "Math" "5" "Fractions" = "🧪 Quiz: Math - Class 5 - Fractions" ∧
    quizCurriculumTitle "Math" "5" "" = "🧪 Quiz: Math - Class 5 " := by
  refine ⟨fun h => ⟨?_, ?_⟩, fun h => ⟨?_, ?_⟩, by decide, by decide⟩
  · refine ⟨"Generate a 3-question multiple-choice quiz for a Class " ++ grade ++ " student on ",
      " in " ++ subject ++ ". Each question should have 3-4 options, with one correct answer. Format clearly with each question numbered (Q1, Q2, etc.), options lettered (A, B, C), and explicitly state the 'Correct Answer: [Letter]' for each question.",
      ?_⟩
    unfold quizCurriculumPrompt
    rw [if_pos h]
    simp only [String.append_assoc]
  · unfold quizCurriculumTitle
    rw [if_pos h]
  · refine ⟨"Generate a 3-question multiple-choice quiz for a Class " ++ grade ++ " student on ",
      " in " ++ subject ++ ". Each question should have 3-4 options, with one correct answer. Format clearly with each question numbered (Q1, Q2, etc.), options lettered (A, B, C), and explicitly state the 'Correct Answer: [Letter]' for each question.",
      ?_⟩
    unfold quizCurriculumPrompt
    rw [if_neg (by simp [h])]
    simp only [String.append_assoc]
  · unfold quizCurriculumTitle
    rw [if_neg (by simp [h])]
    simp only [String.append_assoc, String.append_empty]

/-- Witness for C4 (amended) at Math, class 5, chapter Fractions. -/
theorem C4_amended_witness :
    (∃ a b, quizCurriculumPrompt "Math" "5" "Fractions" =
      a ++ ("Chapter: " ++ "Fractions") ++ b) ∧
    quizCurriculumTitle "Math" "5" "Fractions" =
      "🧪 Quiz: " ++ "Math" ++ " - Class " ++ "5" ++ " " ++ ("- " ++ "Fractions") :=
  (C4_amended "Math" "5" "Fractions").1 (by decide)

/-- Claim C7: a failed learn request leaves the learning topic and content
both absent — no half-state — and a failed chat request leaves the session
state, in particular the prior turn sequence, unchanged. -/
theorem C7_failure_atomicity (s s2 : SessionState)
    (topic chat_input persona lang : String) (instant : Nat)
    (e e2 : GatewayError) (h : topic ≠ "") (h2 : chat_input ≠ "") :
    ((handleLearnClick s topic (Except.error e)).state.learning_topic = none ∧
     (handleLearnClick s topic (Except.error e)).state.learning_content = none) ∧
    (handleChatInput s2 chat_input persona lang instant (Except.error e2)).state = s2 := by
  refine ⟨⟨?_, ?_⟩, ?_⟩
  · unfold handleLearnClick
    rw [if_pos h]
  · unfold handleLearnClick
    rw [if_pos h]
  · unfold handleChatInput
    rw [if_pos h2]

/-- Witness for C7 on concrete failing requests. -/
theorem C7_failure_atomicity_witness :
    ((handleLearnClick demoLearnedSession "Photosynthesis"
        (Except.error ⟨"boom"⟩)).state.learning_topic = none ∧
     (handleLearnClick demoLearnedSession "Photosynthesis"
        (Except.error ⟨"boom"⟩)).state.learning_content = none) ∧
    (handleChatInput demoChatSession "Hi" "Fun" "English" 7
      (Except.error ⟨"boom"⟩)).state = demoChatSession :=
  C7_failure_atomicity demoLearnedSession demoChatSession "Photosynthesis" "Hi"
    "Fun" "English" 7 ⟨"boom"⟩ ⟨"boom"⟩ (by decide) (by decide)

/-- Claim C8 counterexample: clearing twice in a row does not succeed both
times — after a first successful clear the content key is absent, and the
second click's unconditional delete of `learning_content` raises. -/
theorem C8_counterexample :
    clearTopicClick demoLearnedSession = .ok initialSession ∧
    clearTopicClick initialSession = .error ClearError.KeyError :=
  ⟨rfl, rfl⟩

/-- Claim C8 (amended): whenever the content key is present a clear succeeds
and leaves both topic and content absent with no partial state (so a repeated
clear finds nothing left of the context), but the operation is not total — on
a state whose content key is already absent, as after a successful clear, the
unconditional delete fails, so the second of two consecutive calls errors
rather than succeeding. -/
theorem C8_amended (s : SessionState) :
    (∀ v, s.learning_content = some v →
      clearTopicClick s =
        .ok { s with learning_content := none, learning_topic := none }) ∧
    (s.learning_content = none →
      clearTopicClick s = .error ClearError.KeyError) := by
  constructor
  · intro v hv
    unfold clearTopicClick
    rw [hv]
  · intro hv
    unfold clearTopicClick
    rw [hv]

/-- Witness for C8 (amended) on the Photosynthesis session. -/
theorem C8_amended_witness :
    clearTopicClick demoLearnedSession =
      .ok { demoLearnedSession with learning_content := none, learning_topic := none } :=
  (C8_amended demoLearnedSession).1 (some "Plants use light...") rfl

/-- Claim C9: a blank (empty) topic makes the learn handler warn about the
empty topic without invoking the completion gateway and without touching the
state, while any non-blank topic invokes the gateway exactly once. -/
theorem C9_empty_topic_guard (s : SessionState) (topic : String)
    (gw : Except GatewayError String) :
    (topic = "" →
      (handleLearnClick s topic gw).gatewayCalls = [] ∧
      (handleLearnClick s topic gw).outcome = LearnOutcome.emptyTopicWarning ∧
      (handleLearnClick s topic gw).state = s) ∧
    (topic ≠ "" → (handleLearnClick s topic gw).gatewayCalls.length = 1) := by
  constructor
  · intro h
    subst h
    unfold handleLearnClick
    rw [if_neg (by simp)]
    exact ⟨rfl, rfl, rfl⟩
  · intro h
    unfold handleLearnClick
    rw [if_pos h]
    cases gw <;> rfl

/-- Witness for C9 at an empty and a non-empty topic. -/
theorem C9_empty_topic_guard_witness :
    ((handleLearnClick initialSession "" (Except.ok "resp")).gatewayCalls = [] ∧
     (handleLearnClick initialSession "" (Except.ok "resp")).outcome =
       LearnOutcome.emptyTopicWarning ∧
     (handleLearnClick initialSession "" (Except.ok "resp")).state = initialSession) ∧
    (handleLearnClick initialSession "Photosynthesis" (Except.ok "resp")).gatewayCalls.length = 1 :=
  ⟨(C9_empty_topic_guard initialSession "" (Except.ok "resp")).1 rfl,
   (C9_empty_topic_guard initialSession "Photosynthesis" (Except.ok "resp")).2 (by decide)⟩

/-- Claim C10: whenever the quiz handler reaches the gateway call and the
call fails, the stored quiz text and quiz title are both absent afterwards,
whatever was stored by an earlier successful generation. -/
theorem C10_quiz_failure_clears (s : SessionState) (subject grade chapter : String)
    (e : GatewayError) (h : quizBranch s subject grade ≠ QuizBranch.neither) :
    (handleQuizClick s subject grade chapter (Except.error e)).state.generated_quiz_text = none ∧
    (handleQuizClick s subject grade chapter (Except.error e)).state.quiz_title = none := by
  unfold handleQuizClick
  unfold quizBranch at h
  by_cases h1 : truthy s.learning_content = true ∧ truthy s.learning_topic = true
  · rw [if_pos h1]
    exact ⟨rfl, rfl⟩
  · rw [if_neg h1] at h ⊢
    by_cases h2 : subject ≠ "" ∧ grade ≠ ""
    · rw [if_pos h2]
      exact ⟨rfl, rfl⟩
    · rw [if_neg h2] at h
      exact absurd rfl h

/-- Witness for C10 on a session holding a previously generated quiz. -/
theorem C10_quiz_failure_clears_witness :
    (handleQuizClick demoChatSession "Math" "5" ""
      (Except.error ⟨"boom"⟩)).state.generated_quiz_text = none ∧
    (handleQuizClick demoChatSession "Math" "5" ""
      (Except.error ⟨"boom"⟩)).state.quiz_title = none :=
  C10_quiz_failure_clears demoChatSession "Math" "5" "" ⟨"boom"⟩ (by decide)

end EduAI
